import Mathlib

/- A shallow embedding of the LinkedIn article poster (app.py and
linkedin_poster_core.py): string helpers, the Gemini response extractor,
the generation retry loop, payload construction, organization-id
resolution, and the two UI button handlers, modelled as pure functions
over an explicit session state with an explicit effect trace. Strings are
modelled as lists of characters. -/

abbrev Str := List Char

/-- Whitespace characters recognised by Python str.strip and str.rstrip
(ASCII subset). -/
def isPySpace (c : Char) : Bool :=
  c = ' ' || c = '\t' || c = '\n' || c = '\r' || c = '\x0b' || c = '\x0c'

/-- Python str.lstrip with no argument. -/
def pyStripLeft (s : Str) : Str := s.dropWhile isPySpace

/-- Python str.rstrip with no argument. -/
def pyStripRight (s : Str) : Str := (s.reverse.dropWhile isPySpace).reverse

/-- Python str.strip with no argument. -/
def pyStrip (s : Str) : Str := pyStripRight (pyStripLeft s)

/-- app.py MAX_LINKEDIN_COMMENTARY_LENGTH. -/
def MAX_LINKEDIN_COMMENTARY_LENGTH : Nat := 3000

/-- app.py safe_truncate: return the text unchanged when its length is
within max_len; otherwise keep the first max_len - 3 characters, strip
trailing whitespace, and append the three-character ellipsis. -/
def safe_truncate (text : Str) (max_len : Nat) : Str :=
  if text.length ≤ max_len then text
  else pyStripRight (text.take (max_len - 3)) ++ "...".toList

-- Basic facts about dropWhile and the strip helpers.

theorem dropWhile_self_of_head (p : Char → Bool) (a : Char) (l : List Char)
    (h : p a = false) : List.dropWhile p (a :: l) = a :: l := by
  simp [List.dropWhile, h]

theorem head_false_of_dropWhile_self (p : Char → Bool) (a : Char) (l : List Char)
    (h : List.dropWhile p (a :: l) = a :: l) : p a = false := by
  by_contra hpa
  rw [Bool.not_eq_false] at hpa
  have h1 : List.dropWhile p (a :: l) = List.dropWhile p l := by
    simp [List.dropWhile, hpa]
  have h2 : (List.dropWhile p l).length ≤ l.length := (List.dropWhile_sublist p).length_le
  rw [h1] at h
  have := congrArg List.length h
  simp at this
  omega

theorem dropWhile_idem (p : Char → Bool) (l : List Char) :
    List.dropWhile p (List.dropWhile p l) = List.dropWhile p l := by
  induction l with
  | nil => simp
  | cons a t ih =>
    by_cases hpa : p a = true
    · simp [List.dropWhile, hpa, ih]
    · rw [Bool.not_eq_true] at hpa
      simp [List.dropWhile, hpa]

theorem pyStripRight_idem (l : Str) :
    pyStripRight (pyStripRight l) = pyStripRight l := by
  unfold pyStripRight
  rw [List.reverse_reverse, dropWhile_idem]

theorem length_pyStripRight_le (l : Str) : (pyStripRight l).length ≤ l.length := by
  unfold pyStripRight
  rw [List.length_reverse]
  calc (List.dropWhile isPySpace l.reverse).length
      ≤ l.reverse.length := (List.dropWhile_sublist isPySpace).length_le
    _ = l.length := List.length_reverse l

theorem pyStripLeft_pyStripRight (l : Str) (h : pyStripLeft l = l) :
    pyStripLeft (pyStripRight l) = pyStripRight l := by
  cases l with
  | nil => simp [pyStripRight, pyStripLeft]
  | cons a t =>
    have ha : isPySpace a = false := head_false_of_dropWhile_self _ _ _ h
    unfold pyStripRight
    rw [List.reverse_cons, List.dropWhile_append]
    cases hdw : List.dropWhile isPySpace t.reverse with
    | nil =>
      simp [List.dropWhile, ha, pyStripLeft]
    | cons b u =>
      simp only [List.isEmpty_cons, if_neg, Bool.false_eq_true, not_false_eq_true]
      rw [List.reverse_append]
      simp [pyStripLeft, List.dropWhile, ha]

theorem pyStrip_idem (s : Str) : pyStrip (pyStrip s) = pyStrip s := by
  have h1 : pyStripLeft (pyStripLeft s) = pyStripLeft s := dropWhile_idem isPySpace s
  unfold pyStrip
  rw [pyStripLeft_pyStripRight (pyStripLeft s) h1, pyStripRight_idem]

-- ---------- Gemini response values and the response extractor ----------

/-- A Python value as it can appear in a generation-service response:
a string, a mapping (dict with string keys), an object carrying named
attributes, a list or tuple, or any other value (None, numbers, ...). -/
inductive GVal where
  | vstr : Str → GVal
  | vdict : List (String × GVal) → GVal
  | vobj : List (String × GVal) → GVal
  | vlist : List GVal → GVal
  | vnone : GVal

/-- Python truthiness of a GVal: empty strings, empty mappings, empty
lists and None are falsy; plain objects are truthy. -/
def GVal.truthy : GVal → Bool
  | GVal.vstr s => !s.isEmpty
  | GVal.vdict d => !d.isEmpty
  | GVal.vobj _ => true
  | GVal.vlist l => !l.isEmpty
  | GVal.vnone => false

/-- Python getattr probing: only objects expose attributes
(hasattr on a dict tests attributes, not keys). -/
def getattrOpt : GVal → String → Option GVal
  | GVal.vobj attrs, k => List.lookup k attrs
  | _, _ => none

/-- The value of a chain x1 or x2 or ... or xn of Python expressions,
where a missing dict key reads as None: the first truthy value wins. -/
def firstTruthy : List (Option GVal) → Option GVal
  | [] => none
  | o :: os =>
    match o with
    | some v => if v.truthy then some v else firstTruthy os
    | none => firstTruthy os

/-- The dict-key probing loop of the extractor: for each key in order,
if the key is present, holds a string, and that string strips to
non-empty, return the stripped string; otherwise continue. -/
def probeKeys (d : List (String × GVal)) : List String → Option Str
  | [] => none
  | k :: ks =>
    match List.lookup k d with
    | some (GVal.vstr s) =>
      if (pyStrip s).isEmpty then probeKeys d ks else some (pyStrip s)
    | _ => probeKeys d ks

/-- The attribute probing loop of the extractor: for each attribute name
in order, if the object has it, it holds a string, and that string strips
to non-empty, return the stripped string; otherwise continue. -/
def probeAttrs (v : GVal) : List String → Option Str
  | [] => none
  | a :: as1 =>
    match getattrOpt v a with
    | some (GVal.vstr s) =>
      if (pyStrip s).isEmpty then probeAttrs v as1 else some (pyStrip s)
    | _ => probeAttrs v as1

/-- The probe of the first candidates element when it is a mapping:
look up "output", "content", "text" in that order. -/
def firstElemProbe (first : GVal) : Option Str :=
  match first with
  | GVal.vdict fd => probeKeys fd ["output", "content", "text"]
  | _ => none

/-- The direct-string fallback on the first candidates element. -/
def firstElemString (first : GVal) : Option Str :=
  match first with
  | GVal.vstr s => if (pyStrip s).isEmpty then none else some (pyStrip s)
  | _ => none

/-- The dict branch of the extractor: top-level "text" / "content" keys
first, then the candidates / outputs / choices chain whose first element
is probed as a mapping and then as a string. -/
def extractDict (d : List (String × GVal)) : Option Str :=
  match probeKeys d ["text", "content"] with
  | some s => some s
  | none =>
    match firstTruthy [List.lookup "candidates" d, List.lookup "outputs" d,
        List.lookup "choices" d] with
    | some (GVal.vlist (first :: _)) =>
      match firstElemProbe first with
      | some s => some s
      | none => firstElemString first
    | _ => none

/-- The attribute branch of the extractor: a "candidates" attribute
holding a non-empty list whose first element is probed for "content",
"output" and "text" attributes in that order. -/
def extractObjCandidates (resp : GVal) : Option Str :=
  match getattrOpt resp "candidates" with
  | some (GVal.vlist (first :: _)) => probeAttrs first ["content", "output", "text"]
  | _ => none

/-- The result of the initial hasattr(resp, "text") probe of the
extractor. -/
def textAttrProbe (resp : GVal) : Option Str :=
  match getattrOpt resp "text" with
  | some (GVal.vstr s) => if (pyStrip s).isEmpty then none else some (pyStrip s)
  | _ => none

/-- app.py extract_text_from_gemini_response: probe a direct text
attribute, then dict keys, then the candidates chain of a dict, then a
candidates attribute; any internal fault reads as None (the embedding is
total, so no exception can escape). -/
def extract_text_from_gemini_response (resp : GVal) : Option Str :=
  match textAttrProbe resp with
  | some s => some s
  | none =>
    match resp with
    | GVal.vdict d => extractDict d
    | _ => extractObjCandidates resp

-- ---------- Generation client (retry loop) ----------

/-- The kinds of Python exception the embedding distinguishes. -/
inductive PyExc where
  | typeError
  | httpError
  | runtimeError
  | valueError
  | otherError
deriving DecidableEq

/-- Result of one run of the generation client: the returned text or the
propagated exception, the number of attempts made, and the sleep
durations (in whole time units, each 1.0 * attempt) in order. -/
structure GenRun where
  result : Except PyExc Str
  attempts : Nat
  sleeps : List Nat

/-- Outcome of a single attempt of the retry loop body: build the model,
generate a response (the oracle gives the response of attempt a, or the
exception it raises), extract text, and treat a falsy extraction as a
ValueError. -/
def attemptOutcome (oracle : Nat → Except PyExc GVal) (a : Nat) : Except PyExc Str :=
  match oracle a with
  | Except.error e => Except.error e
  | Except.ok r =>
    match extract_text_from_gemini_response r with
    | some s => if s.isEmpty then Except.error PyExc.valueError else Except.ok s
    | none => Except.error PyExc.valueError

/-- The while loop of generate_article_with_gemini. The fuel argument
equals max_retries + 1 - attempt, so fuel > 0 exactly when the loop
condition attempt <= max_retries holds; on a failed attempt a the loop
raises when a > max_retries and otherwise sleeps a time units and
retries. Exhausted fuel is the fall-through RuntimeError after the
loop. -/
def genGo (oracle : Nat → Except PyExc GVal) (max_retries : Nat) :
    Nat → Nat → GenRun
  | _, 0 => ⟨Except.error PyExc.runtimeError, 0, []⟩
  | attempt, fuel + 1 =>
    let a := attempt + 1
    match attemptOutcome oracle a with
    | Except.ok s => ⟨Except.ok s, a, []⟩
    | Except.error e =>
      if a > max_retries then ⟨Except.error e, a, []⟩
      else
        let rest := genGo oracle max_retries a fuel
        ⟨rest.result, rest.attempts, a :: rest.sleeps⟩

/-- app.py generate_article_with_gemini: raise at once when the client
library is unavailable, otherwise run the retry loop starting at
attempt 0 with the loop condition attempt <= max_retries. -/
def generate_article_with_gemini (genai_available : Bool)
    (oracle : Nat → Except PyExc GVal) (max_retries : Nat) : GenRun :=
  if genai_available then genGo oracle max_retries 0 (max_retries + 1)
  else ⟨Except.error PyExc.runtimeError, 0, []⟩

-- ---------- Organization resolver ----------

/-- Python str.split with a one-character separator: splits on every
occurrence and keeps empty parts, so the result is never empty. -/
def pySplit (sep : Char) : Str → List Str
  | [] => [[]]
  | c :: rest =>
    let ps := pySplit sep rest
    if c = sep then [] :: ps
    else (c :: ps.headD []) :: ps.tail

/-- parts[-1] of Python s.split(sep): the last split segment. -/
def lastSegment (sep : Char) (s : Str) : Str := (pySplit sep s).getLastD []

/-- The element scan of get_linkedin_org_id: for each element of the
elements list, read organizationalTarget with organizationalTarget~ as
fallback; on the first truthy value, split on colons and return the last
part (a non-string truthy value, or a non-dict element, would raise in
the source). -/
def scanElements : List GVal → Except PyExc (Option Str)
  | [] => Except.ok none
  | GVal.vdict ed :: rest =>
    match firstTruthy [List.lookup "organizationalTarget" ed,
        List.lookup "organizationalTarget~" ed] with
    | some (GVal.vstr s) => Except.ok (some (lastSegment ':' s))
    | some _ => Except.error PyExc.otherError
    | none => scanElements rest
  | _ :: _ => Except.error PyExc.otherError

/-- app.py get_linkedin_org_id, success path: the network GET and HTTP
status check are abstracted away and the function is modelled on the
parsed JSON body of a successful response. data.get("elements", [])
defaults a missing key to the empty list; iterating a non-list raises. -/
def get_linkedin_org_id (data : List (String × GVal)) : Except PyExc (Option Str) :=
  match List.lookup "elements" data with
  | none => Except.ok none
  | some (GVal.vlist els) => scanElements els
  | some _ => Except.error PyExc.otherError

-- ---------- Payload builder and core backend module ----------

/-- The UGC post payload built by app.py build_ugc_payload. -/
structure UGCPayload where
  author : Str
  lifecycleState : Str
  shareCommentaryText : Str
  shareMediaCategory : Str
  visibility : Str
deriving DecidableEq

/-- app.py build_ugc_payload. -/
def build_ugc_payload (org_id : Str) (text : Str) : UGCPayload :=
  ⟨"urn:li:organization:".toList ++ org_id, "PUBLISHED".toList,
   safe_truncate text MAX_LINKEDIN_COMMENTARY_LENGTH, "NONE".toList,
   "PUBLIC".toList⟩

/-- The "# Prompt\n{prompt}\n\n" header prepended by both the mock path
of the generate handler and the core backend generator. -/
def promptHeaderText (p : Str) : Str := "# Prompt\n".toList ++ p ++ "\n\n".toList

/-- app.py MOCK_ARTICLE after textwrap.dedent and strip. -/
def MOCK_ARTICLE : Str :=
  ("Introduction\n\nCloud-native technologies are transforming how enterprises design, deploy, and operate software...\n(This is a placeholder article used when Gemini is not available.)").toList

/-- The constant tail of linkedin_poster_core.generate_article. -/
def core_placeholder : Str :=
  "Generated article placeholder. Replace with a real generator.".toList

/-- linkedin_poster_core.generate_article. -/
def generate_article (prompt model : Str) (gemini_api_key : Option Str) : Str :=
  promptHeaderText prompt ++ core_placeholder

-- ---------- Session state, effects and handlers ----------

/-- Externally visible side effects of a handler run, in order. -/
inductive Eff where
  | netGet
  | netPost
  | backendGenCall
  | backendPostCall
  | fileWrite (path content : Str)
  | sleep (units : Nat)
deriving DecidableEq

/-- The log lines the handlers can append, one constructor per
append_log call site, carrying the interpolated data. -/
inductive LogMsg where
  | genStarted
  | usingBackendGen
  | genCompletedBackend
  | genViaGemini
  | geminiSucceeded
  | geminiFailedFallback (e : PyExc)
  | usingMockGen
  | savedArticle (path : Str)
  | saveFailed
  | genFailed (e : PyExc)
  | pubStarted
  | noArticleWarn
  | keyMissingError
  | usingBackendPost
  | backendPubSuccessHeader
  | backendPubResponse
  | autoDetectedOrg (oid : Str)
  | orgDetectError (e : PyExc)
  | dryRunHeader
  | dryRunPayloadPreview (p : UGCPayload)
  | sendingPost
  | postedHeader
  | postedResponse
  | httpErrorLog (e : PyExc)
  | pubFailed (e : PyExc)
deriving DecidableEq

/-- The Streamlit session state the handlers read and write. -/
structure SessionState where
  generatedArticle : Str
  geminiKey : Str
  linkedinKey : Str
  logs : List LogMsg
deriving DecidableEq

/-- append_log. -/
def addLog (s : SessionState) (m : LogMsg) : SessionState :=
  { s with logs := s.logs ++ [m] }

/-- Final state and effect trace of one handler run. -/
structure HandlerResult where
  state : SessionState
  effs : List Eff
deriving DecidableEq

/-- Configuration and oracles for one run of the generate handler:
widget inputs, which optional collaborators exist, and the outcomes of
the external calls the handler may make. -/
structure GenEnv where
  backendModule : Bool
  backendHasGen : Bool
  genaiAvailable : Bool
  promptInput : Str
  modelName : Str
  geminiKeyInput : Str
  linkedinKeyInput : Str
  savePath : Str
  backendNamed : Except PyExc Str
  backendPos : Except PyExc Str
  geminiOracle : Nat → Except PyExc GVal
  fileWriteOk : Bool

/-- Intermediate result of the article-producing part of the generate
handler: state so far, effects so far, and the article text or the
exception that escaped. -/
structure GenStep where
  state : SessionState
  effs : List Eff
  outcome : Except PyExc Str

/-- The body of the generate handler that chooses the backend module,
the Gemini client, or the mock, and produces the article text. -/
def genArticleStep (env : GenEnv) (s1 : SessionState) (gk : Str) : GenStep :=
  if env.backendModule && env.backendHasGen then
    let s := addLog s1 LogMsg.usingBackendGen
    match env.backendNamed with
    | Except.ok t => ⟨addLog s LogMsg.genCompletedBackend, [Eff.backendGenCall], Except.ok t⟩
    | Except.error PyExc.typeError =>
      match env.backendPos with
      | Except.ok t =>
        ⟨addLog s LogMsg.genCompletedBackend, [Eff.backendGenCall, Eff.backendGenCall],
         Except.ok t⟩
      | Except.error e =>
        ⟨s, [Eff.backendGenCall, Eff.backendGenCall], Except.error e⟩
    | Except.error e => ⟨s, [Eff.backendGenCall], Except.error e⟩
  else if env.genaiAvailable && !gk.isEmpty then
    let s := addLog s1 LogMsg.genViaGemini
    let run := generate_article_with_gemini true env.geminiOracle 2
    let sleepEffs := run.sleeps.map Eff.sleep
    match run.result with
    | Except.ok t => ⟨addLog s LogMsg.geminiSucceeded, sleepEffs, Except.ok t⟩
    | Except.error e =>
      ⟨addLog s (LogMsg.geminiFailedFallback e), sleepEffs,
       Except.ok (promptHeaderText env.promptInput ++ MOCK_ARTICLE)⟩
  else
    ⟨addLog s1 LogMsg.usingMockGen, [],
     Except.ok (promptHeaderText env.promptInput ++ MOCK_ARTICLE)⟩

/-- The generate button handler of app.py: update session keys, produce
the article, store it in session state, optionally save it to a file,
and log any escaping exception. -/
def generate_btn_handler (env : GenEnv) (s : SessionState) : HandlerResult :=
  let s0 := addLog s LogMsg.genStarted
  let gk := if env.geminiKeyInput.isEmpty then s0.geminiKey else env.geminiKeyInput
  let lk := if env.linkedinKeyInput.isEmpty then s0.linkedinKey else env.linkedinKeyInput
  let s1 := { s0 with geminiKey := gk, linkedinKey := lk }
  let step := genArticleStep env s1 gk
  match step.outcome with
  | Except.error e => ⟨addLog step.state (LogMsg.genFailed e), step.effs⟩
  | Except.ok text =>
    let s2 := { step.state with generatedArticle := text }
    if env.savePath.isEmpty then ⟨s2, step.effs⟩
    else if env.fileWriteOk then
      ⟨addLog s2 (LogMsg.savedArticle env.savePath),
       step.effs ++ [Eff.fileWrite env.savePath text]⟩
    else ⟨addLog s2 LogMsg.saveFailed, step.effs⟩

/-- Configuration and oracles for one run of the publish handler. -/
structure PubEnv where
  backendModule : Bool
  backendHasPost : Bool
  linkedinKeyInput : Str
  orgIdOverride : Str
  dryRun : Bool
  backendPostNamed : Except PyExc Unit
  backendPostPos : Except PyExc Unit
  orgResolve : Except PyExc (Option Str)
  postOutcome : Except PyExc Unit

/-- Intermediate result of the try block of the publish handler. -/
structure PubStep where
  state : SessionState
  effs : List Eff
  exc : Option PyExc

/-- The try block of the publish handler: backend-module posting, or
organization resolution, payload construction, and the dry-run or live
POST branch. -/
def pubBody (env : PubEnv) (s1 : SessionState) (article : Str) : PubStep :=
  if env.backendModule && env.backendHasPost then
    let s := addLog s1 LogMsg.usingBackendPost
    match env.backendPostNamed with
    | Except.ok _ =>
      ⟨addLog (addLog s LogMsg.backendPubSuccessHeader) LogMsg.backendPubResponse,
       [Eff.backendPostCall], none⟩
    | Except.error PyExc.typeError =>
      match env.backendPostPos with
      | Except.ok _ =>
        ⟨addLog (addLog s LogMsg.backendPubSuccessHeader) LogMsg.backendPubResponse,
         [Eff.backendPostCall, Eff.backendPostCall], none⟩
      | Except.error e => ⟨s, [Eff.backendPostCall, Eff.backendPostCall], some e⟩
    | Except.error e => ⟨s, [Eff.backendPostCall], some e⟩
  else
    let orgStep :=
      if !env.orgIdOverride.isEmpty then (s1, ([] : List Eff), Except.ok env.orgIdOverride)
      else
        match env.orgResolve with
        | Except.ok (some oid) =>
          if oid.isEmpty then
            (addLog s1 (LogMsg.orgDetectError PyExc.runtimeError), [Eff.netGet],
             Except.error PyExc.runtimeError)
          else
            (addLog s1 (LogMsg.autoDetectedOrg oid), [Eff.netGet], Except.ok oid)
        | Except.ok none =>
          (addLog s1 (LogMsg.orgDetectError PyExc.runtimeError), [Eff.netGet],
           Except.error PyExc.runtimeError)
        | Except.error e =>
          (addLog s1 (LogMsg.orgDetectError e), [Eff.netGet], Except.error e)
    match orgStep with
    | (s2, effs, Except.error e) => ⟨s2, effs, some e⟩
    | (s2, effs, Except.ok oid) =>
      let payload := build_ugc_payload oid article
      if env.dryRun then
        ⟨addLog (addLog s2 LogMsg.dryRunHeader) (LogMsg.dryRunPayloadPreview payload),
         effs, none⟩
      else
        let s3 := addLog s2 LogMsg.sendingPost
        match env.postOutcome with
        | Except.ok _ =>
          ⟨addLog (addLog s3 LogMsg.postedHeader) LogMsg.postedResponse,
           effs ++ [Eff.netPost], none⟩
        | Except.error e => ⟨s3, effs ++ [Eff.netPost], some e⟩

/-- The two except clauses at the end of the publish handler: an HTTP
error and a generic exception are logged distinctly; effects are
unaffected. -/
def pubWrapExc (st : PubStep) : SessionState :=
  match st.exc with
  | none => st.state
  | some PyExc.httpError => addLog st.state (LogMsg.httpErrorLog PyExc.httpError)
  | some e => addLog st.state (LogMsg.pubFailed e)

/-- The publish button handler of app.py: refuse without an article or a
LinkedIn key, otherwise run the try block and log HTTP errors and
generic errors distinctly. -/
def post_btn_handler (env : PubEnv) (s : SessionState) : HandlerResult :=
  let s0 := addLog s LogMsg.pubStarted
  let article := s0.generatedArticle
  if article.isEmpty then ⟨addLog s0 LogMsg.noArticleWarn, []⟩
  else
    let lk := if env.linkedinKeyInput.isEmpty then s0.linkedinKey else env.linkedinKeyInput
    let s1 := { s0 with linkedinKey := lk }
    if lk.isEmpty then ⟨addLog s1 LogMsg.keyMissingError, []⟩
    else
      let step := pubBody env s1 article
      ⟨pubWrapExc step, step.effs⟩

-- ---------- Claims about safe_truncate (C2, C3) ----------

/-- The truncation rule as worded in the spec: identity within the 3000
limit, otherwise the first 3000 - 3 units with trailing whitespace
stripped, followed by the three-character ellipsis marker. -/
def spec_truncate (text : Str) : Str :=
  if text.length ≤ 3000 then text
  else pyStripRight (text.take (3000 - 3)) ++ "...".toList

/-- C3: safe_truncate equals the spec reference definition; it is the
identity on texts of length at most 3000, and its output never exceeds
3000 units including the marker. -/
theorem safe_truncate_refines_spec :
    ∀ text : Str,
      safe_truncate text MAX_LINKEDIN_COMMENTARY_LENGTH = spec_truncate text ∧
      (text.length ≤ 3000 → safe_truncate text MAX_LINKEDIN_COMMENTARY_LENGTH = text) ∧
      (safe_truncate text MAX_LINKEDIN_COMMENTARY_LENGTH).length ≤ 3000 := by
  intro text
  refine ⟨rfl, ?_, ?_⟩
  · intro h
    simp [safe_truncate, MAX_LINKEDIN_COMMENTARY_LENGTH, h]
  · by_cases h : text.length ≤ 3000
    · simp [safe_truncate, MAX_LINKEDIN_COMMENTARY_LENGTH, h]
    · unfold safe_truncate
      rw [show MAX_LINKEDIN_COMMENTARY_LENGTH = 3000 from rfl, if_neg h, List.length_append]
      have h1 : (pyStripRight (text.take (3000 - 3))).length ≤ (text.take (3000 - 3)).length :=
        length_pyStripRight_le _
      have h2 : (text.take (3000 - 3)).length ≤ 2997 := by
        rw [List.length_take]
        omega
      have h3 : ("...".toList : Str).length = 3 := by decide
      omega

/-- Witness for C3 at a concrete short input. -/
theorem safe_truncate_refines_spec_witness :
    safe_truncate "hi".toList MAX_LINKEDIN_COMMENTARY_LENGTH = "hi".toList :=
  (safe_truncate_refines_spec "hi".toList).2.1 (by decide)

/-- A text of 3001 characters whose 2997-character prefix ends in a
space, so that rstrip shortens the kept prefix. -/
def truncCexText : Str := List.replicate 2996 'a' ++ ' ' :: "bbbb".toList

/-- Counterexample for C2: a text strictly longer than 3000 whose
truncation has length 2999, not exactly 3000, because the stripped
trailing space is not compensated. -/
theorem safe_truncate_length_not_exact :
    truncCexText.length > 3000 ∧
      (safe_truncate truncCexText MAX_LINKEDIN_COMMENTARY_LENGTH).length ≠ 3000 := by
  have hlen : truncCexText.length = 3001 := by
    unfold truncCexText
    rw [List.length_append, List.length_replicate]
    have h5 : (' ' :: "bbbb".toList).length = 5 := by decide
    omega
  constructor
  · omega
  · have htake : truncCexText.take (3000 - 3) = List.replicate 2996 'a' ++ [' '] := by
      unfold truncCexText
      rw [List.take_append_eq_append_take, List.length_replicate, List.take_replicate]
      norm_num
    have hstrip : pyStripRight (List.replicate 2996 'a' ++ [' ']) = List.replicate 2996 'a' := by
      unfold pyStripRight
      rw [List.reverse_append, List.reverse_replicate, List.reverse_singleton,
        List.singleton_append, List.dropWhile_cons_of_pos (by decide : isPySpace ' '),
        List.dropWhile_replicate, if_neg (by decide), List.reverse_replicate]
    have heq : safe_truncate truncCexText MAX_LINKEDIN_COMMENTARY_LENGTH
        = List.replicate 2996 'a' ++ "...".toList := by
      unfold safe_truncate
      rw [show MAX_LINKEDIN_COMMENTARY_LENGTH = 3000 from rfl,
        if_neg (by rw [hlen]; omega), htake, hstrip]
    rw [heq, List.length_append, List.length_replicate]
    have h3 : ("...".toList : Str).length = 3 := by decide
    omega

/-- C2 as amended: for every text strictly longer than 3000 units,
safe_truncate returns a string of length at most 3000 that ends with the
three-character ellipsis marker. -/
theorem safe_truncate_long_bound :
    ∀ text : Str, text.length > 3000 →
      (safe_truncate text MAX_LINKEDIN_COMMENTARY_LENGTH).length ≤ 3000 ∧
      ∃ pre, safe_truncate text MAX_LINKEDIN_COMMENTARY_LENGTH = pre ++ "...".toList := by
  intro text h
  refine ⟨(safe_truncate_refines_spec text).2.2, ?_⟩
  refine ⟨pyStripRight (text.take (3000 - 3)), ?_⟩
  unfold safe_truncate
  rw [show MAX_LINKEDIN_COMMENTARY_LENGTH = 3000 from rfl, if_neg (by omega)]

/-- Witness for the amended C2 at a concrete long input. -/
theorem safe_truncate_long_bound_witness :
    (safe_truncate (List.replicate 3001 'x') MAX_LINKEDIN_COMMENTARY_LENGTH).length ≤ 3000 ∧
      ∃ pre, safe_truncate (List.replicate 3001 'x') MAX_LINKEDIN_COMMENTARY_LENGTH
        = pre ++ "...".toList :=
  safe_truncate_long_bound (List.replicate 3001 'x')
    (by rw [List.length_replicate]; omega)

-- ---------- Claims about the response extractor (C5, C6) ----------

theorem nonempty_of_strip_not_empty (s : Str) (h : ¬ (pyStrip s).isEmpty = true) :
    pyStrip s ≠ [] ∧ pyStrip (pyStrip s) = pyStrip s := by
  constructor
  · intro hnil
    rw [hnil] at h
    exact h rfl
  · exact pyStrip_idem s

theorem probeKeys_good (d : List (String × GVal)) :
    ∀ ks s, probeKeys d ks = some s → s ≠ [] ∧ pyStrip s = s := by
  intro ks
  induction ks with
  | nil => intro s h; simp [probeKeys] at h
  | cons k ks ih =>
    intro s h
    simp only [probeKeys] at h
    split at h
    · split at h
      · exact ih s h
      · injection h with h
        subst h
        exact nonempty_of_strip_not_empty _ (by assumption)
    · exact ih s h

theorem probeAttrs_good (v : GVal) :
    ∀ as1 s, probeAttrs v as1 = some s → s ≠ [] ∧ pyStrip s = s := by
  intro as1
  induction as1 with
  | nil => intro s h; simp [probeAttrs] at h
  | cons a as1 ih =>
    intro s h
    simp only [probeAttrs] at h
    split at h
    · split at h
      · exact ih s h
      · injection h with h
        subst h
        exact nonempty_of_strip_not_empty _ (by assumption)
    · exact ih s h

theorem textAttrProbe_good (v : GVal) (s : Str) (h : textAttrProbe v = some s) :
    s ≠ [] ∧ pyStrip s = s := by
  unfold textAttrProbe at h
  split at h
  · split at h
    · exact absurd h (by simp)
    · injection h with h
      subst h
      exact nonempty_of_strip_not_empty _ (by assumption)
  · exact absurd h (by simp)

theorem firstElemProbe_good (first : GVal) (s : Str)
    (h : firstElemProbe first = some s) : s ≠ [] ∧ pyStrip s = s := by
  unfold firstElemProbe at h
  split at h
  · exact probeKeys_good _ _ _ h
  · exact absurd h (by simp)

theorem firstElemString_good (first : GVal) (s : Str)
    (h : firstElemString first = some s) : s ≠ [] ∧ pyStrip s = s := by
  unfold firstElemString at h
  split at h
  · split at h
    · exact absurd h (by simp)
    · injection h with h
      subst h
      exact nonempty_of_strip_not_empty _ (by assumption)
  · exact absurd h (by simp)

theorem extractDict_good (d : List (String × GVal)) (s : Str)
    (h : extractDict d = some s) : s ≠ [] ∧ pyStrip s = s := by
  unfold extractDict at h
  split at h
  · injection h with h
    subst h
    exact probeKeys_good d _ _ (by assumption)
  · split at h
    · split at h
      · injection h with h
        subst h
        exact firstElemProbe_good _ _ (by assumption)
      · exact firstElemString_good _ _ h
    · exact absurd h (by simp)

theorem extractObjCandidates_good (v : GVal) (s : Str)
    (h : extractObjCandidates v = some s) : s ≠ [] ∧ pyStrip s = s := by
  unfold extractObjCandidates at h
  split at h
  · exact probeAttrs_good _ _ _ h
  · exact absurd h (by simp)

/-- C5: the extractor is total (any internal fault reads as None, so no
exception escapes) and every string it returns is non-empty and equal to
its own strip; an unrecognized shape such as the empty mapping yields
None. -/
theorem extract_text_total_and_shape :
    (∀ v : GVal, ∀ s : Str, extract_text_from_gemini_response v = some s →
      s ≠ [] ∧ pyStrip s = s) ∧
    extract_text_from_gemini_response (GVal.vdict []) = none := by
  constructor
  · intro v s h
    unfold extract_text_from_gemini_response at h
    split at h
    · injection h with h
      subst h
      exact textAttrProbe_good v _ (by assumption)
    · split at h
      · exact extractDict_good _ _ h
      · exact extractObjCandidates_good _ _ h
  · rfl

/-- Witness for C5: a concrete response whose text attribute strips to a
non-empty string. -/
theorem extract_text_total_and_shape_witness :
    "hi".toList ≠ [] ∧ pyStrip "hi".toList = "hi".toList :=
  extract_text_total_and_shape.1
    (GVal.vobj [("text", GVal.vstr " hi ".toList)]) "hi".toList (by decide)

/-- C6: with the earlier probes failing, a mapping whose candidates /
outputs / choices chain yields a non-empty list is handled by probing the
first element: as a mapping via keys "output", "content", "text" in that
order, or directly when it is a string; an object with a "candidates"
attribute holding a non-empty list is handled by probing the first
element's attributes "content", "output", "text" in that order. -/
theorem extract_text_probing_order :
    (∀ (d fd : List (String × GVal)) (rest : List GVal),
      probeKeys d ["text", "content"] = none →
      firstTruthy [List.lookup "candidates" d, List.lookup "outputs" d,
        List.lookup "choices" d] = some (GVal.vlist (GVal.vdict fd :: rest)) →
      extract_text_from_gemini_response (GVal.vdict d)
        = probeKeys fd ["output", "content", "text"]) ∧
    (∀ (d : List (String × GVal)) (s : Str) (rest : List GVal),
      probeKeys d ["text", "content"] = none →
      firstTruthy [List.lookup "candidates" d, List.lookup "outputs" d,
        List.lookup "choices" d] = some (GVal.vlist (GVal.vstr s :: rest)) →
      extract_text_from_gemini_response (GVal.vdict d)
        = (if (pyStrip s).isEmpty then none else some (pyStrip s))) ∧
    (∀ (attrs : List (String × GVal)) (first : GVal) (rest : List GVal),
      textAttrProbe (GVal.vobj attrs) = none →
      List.lookup "candidates" attrs = some (GVal.vlist (first :: rest)) →
      extract_text_from_gemini_response (GVal.vobj attrs)
        = probeAttrs first ["content", "output", "text"]) := by
  refine ⟨?_, ?_, ?_⟩
  · intro d fd rest h1 h2
    show extractDict d = _
    unfold extractDict
    rw [h1, h2]
    cases hp : probeKeys fd ["output", "content", "text"] with
    | none => simp [firstElemProbe, hp, firstElemString]
    | some s => simp [firstElemProbe, hp]
  · intro d s rest h1 h2
    show extractDict d = _
    unfold extractDict
    rw [h1, h2]
    simp [firstElemProbe, firstElemString]
  · intro attrs first rest h1 h2
    unfold extract_text_from_gemini_response
    rw [h1]
    show extractObjCandidates (GVal.vobj attrs) = _
    unfold extractObjCandidates
    show (match List.lookup "candidates" attrs with
          | some (GVal.vlist (f :: _)) => probeAttrs f ["content", "output", "text"]
          | _ => none) = _
    rw [h2]

/-- Witness for C6: a mapping response with a candidates list whose first
element is a mapping holding an "output" key. -/
theorem extract_text_probing_order_witness :
    extract_text_from_gemini_response
      (GVal.vdict [("candidates",
         GVal.vlist [GVal.vdict [("output", GVal.vstr " out ".toList)]])])
      = probeKeys [("output", GVal.vstr " out ".toList)] ["output", "content", "text"] :=
  extract_text_probing_order.1
    [("candidates", GVal.vlist [GVal.vdict [("output", GVal.vstr " out ".toList)]])]
    [("output", GVal.vstr " out ".toList)] [] (by decide) (by rfl)

-- ---------- Claims about the organization resolver (C8) ----------

theorem getLastD_irrel (t : List Str) (x y : Str) (h : t ≠ []) :
    t.getLastD x = t.getLastD y := by
  cases t with
  | nil => exact absurd rfl h
  | cons a l => rw [List.getLastD_cons, List.getLastD_cons]

theorem pySplit_cons (sep c : Char) (b : Str) :
    pySplit sep (c :: b) = (if c = sep then [] :: pySplit sep b
      else (c :: (pySplit sep b).headD []) :: (pySplit sep b).tail) := rfl

theorem pySplit_cons_sep (sep : Char) (b : Str) :
    pySplit sep (sep :: b) = [] :: pySplit sep b := by
  rw [pySplit_cons, if_pos rfl]

theorem pySplit_cons_ne (sep c : Char) (b : Str) (hc : c ≠ sep) :
    pySplit sep (c :: b) = (c :: (pySplit sep b).headD []) :: (pySplit sep b).tail := by
  rw [pySplit_cons, if_neg hc]

theorem pySplit_ne_nil (sep : Char) (s : Str) : pySplit sep s ≠ [] := by
  cases s with
  | nil => simp [pySplit]
  | cons c rest =>
    by_cases hc : c = sep
    · subst hc
      rw [pySplit_cons_sep]
      simp
    · rw [pySplit_cons_ne sep c rest hc]
      simp

theorem pySplit_length_two (sep : Char) :
    ∀ (a b : Str), 2 ≤ (pySplit sep (a ++ sep :: b)).length := by
  intro a
  induction a with
  | nil =>
    intro b
    show 2 ≤ (pySplit sep (sep :: b)).length
    rw [pySplit_cons_sep, List.length_cons]
    have h1 := pySplit_ne_nil sep b
    have h2 : 0 < (pySplit sep b).length := List.length_pos.mpr h1
    omega
  | cons c a2 ih =>
    intro b
    show 2 ≤ (pySplit sep (c :: (a2 ++ sep :: b))).length
    by_cases hc : c = sep
    · subst hc
      rw [pySplit_cons_sep, List.length_cons]
      have := ih b
      omega
    · rw [pySplit_cons_ne sep c _ hc, List.length_cons, List.length_tail]
      have := ih b
      omega

theorem lastSegment_append_sep (sep : Char) :
    ∀ (a b : Str), lastSegment sep (a ++ sep :: b) = lastSegment sep b := by
  intro a
  induction a with
  | nil =>
    intro b
    show lastSegment sep (sep :: b) = _
    unfold lastSegment
    rw [pySplit_cons_sep, List.getLastD_cons]
  | cons c a2 ih =>
    intro b
    show lastSegment sep (c :: (a2 ++ sep :: b)) = _
    unfold lastSegment
    by_cases hc : c = sep
    · subst hc
      rw [pySplit_cons_sep, List.getLastD_cons]
      have hih := ih b
      unfold lastSegment at hih
      exact hih
    · rw [pySplit_cons_ne sep c _ hc, List.getLastD_cons]
      have h2 := pySplit_length_two sep a2 b
      have hih := ih b
      unfold lastSegment at hih
      cases hp : pySplit sep (a2 ++ sep :: b) with
      | nil => exact absurd hp (pySplit_ne_nil sep _)
      | cons x xs =>
        rw [hp, List.getLastD_cons] at hih
        rw [hp] at h2
        simp only [List.length_cons] at h2
        have hxs : xs ≠ [] := by
          cases xs with
          | nil => simp at h2
          | cons y ys => simp
        simp only [List.tail_cons]
        rw [getLastD_irrel xs (c :: (x :: xs).headD []) x hxs]
        exact hih

theorem pySplit_no_sep (sep : Char) :
    ∀ (b : Str), sep ∉ b → pySplit sep b = [b] := by
  intro b
  induction b with
  | nil => intro _; rfl
  | cons c b2 ih =>
    intro h
    have hc : c ≠ sep := by
      intro hc
      exact h (by rw [hc]; exact List.mem_cons_self _ _)
    have hb2 : sep ∉ b2 := by
      intro hm
      exact h (List.mem_cons_of_mem _ hm)
    rw [pySplit_cons_ne sep c b2 hc, ih hb2]
    rfl

theorem lastSegment_no_sep (sep : Char) (b : Str) (h : sep ∉ b) :
    lastSegment sep b = b := by
  unfold lastSegment
  rw [pySplit_no_sep sep b h]
  rfl

/-- C8: the resolver, on a successful parsed response, returns ok-none
when the elements key is missing; scanning stops at the first element
whose organizationalTarget (or organizationalTarget~) value is truthy and
returns the trailing colon-delimited segment of that string; elements
without such a reference are skipped, and an exhausted (or empty)
elements list yields ok-none rather than an error. The trailing segment
is literally the substring after the last colon. -/
theorem get_linkedin_org_id_scan :
    (∀ data : List (String × GVal), List.lookup "elements" data = none →
      get_linkedin_org_id data = Except.ok none) ∧
    (∀ (data : List (String × GVal)) (els : List GVal),
      List.lookup "elements" data = some (GVal.vlist els) →
      get_linkedin_org_id data = scanElements els) ∧
    scanElements [] = Except.ok none ∧
    (∀ (ed : List (String × GVal)) (rest : List GVal) (s : Str),
      firstTruthy [List.lookup "organizationalTarget" ed,
        List.lookup "organizationalTarget~" ed] = some (GVal.vstr s) →
      scanElements (GVal.vdict ed :: rest)
        = Except.ok (some (lastSegment ':' s))) ∧
    (∀ (ed : List (String × GVal)) (rest : List GVal),
      firstTruthy [List.lookup "organizationalTarget" ed,
        List.lookup "organizationalTarget~" ed] = none →
      scanElements (GVal.vdict ed :: rest) = scanElements rest) ∧
    (∀ (pre suf : Str), ':' ∉ suf →
      lastSegment ':' (pre ++ ':' :: suf) = suf) := by
  refine ⟨?_, ?_, rfl, ?_, ?_, ?_⟩
  · intro data h
    unfold get_linkedin_org_id
    rw [h]
  · intro data els h
    unfold get_linkedin_org_id
    rw [h]
  · intro ed rest s h
    unfold scanElements
    rw [h]
  · intro ed rest h
    show (match firstTruthy [List.lookup "organizationalTarget" ed,
        List.lookup "organizationalTarget~" ed] with
      | some (GVal.vstr s) => Except.ok (some (lastSegment ':' s))
      | some _ => Except.error PyExc.otherError
      | none => scanElements rest) = scanElements rest
    rw [h]
  · intro pre suf h
    rw [lastSegment_append_sep ':' pre suf, lastSegment_no_sep ':' suf h]

/-- Witness for C8: one element carrying an organization URN. -/
theorem get_linkedin_org_id_scan_witness :
    scanElements [GVal.vdict [("organizationalTarget",
        GVal.vstr "urn:li:organization:12345".toList)]]
      = Except.ok (some (lastSegment ':' "urn:li:organization:12345".toList)) :=
  get_linkedin_org_id_scan.2.2.2.1
    [("organizationalTarget", GVal.vstr "urn:li:organization:12345".toList)] []
    "urn:li:organization:12345".toList (by rfl)

-- ---------- Claims about the generation client (C4) ----------

theorem genGo_step_ok (oracle : Nat → Except PyExc GVal) (maxR attempt f : Nat)
    (s : Str) (hs : attemptOutcome oracle (attempt + 1) = Except.ok s) :
    genGo oracle maxR attempt (f + 1) = ⟨Except.ok s, attempt + 1, []⟩ := by
  show (match attemptOutcome oracle (attempt + 1) with
        | Except.ok s => (⟨Except.ok s, attempt + 1, []⟩ : GenRun)
        | Except.error e =>
          if attempt + 1 > maxR then ⟨Except.error e, attempt + 1, []⟩
          else
            let rest := genGo oracle maxR (attempt + 1) f
            ⟨rest.result, rest.attempts, (attempt + 1) :: rest.sleeps⟩) = _
  rw [hs]

theorem genGo_step_fail_last (oracle : Nat → Except PyExc GVal) (maxR attempt f : Nat)
    (e : PyExc) (he : attemptOutcome oracle (attempt + 1) = Except.error e)
    (hgt : attempt + 1 > maxR) :
    genGo oracle maxR attempt (f + 1) = ⟨Except.error e, attempt + 1, []⟩ := by
  show (match attemptOutcome oracle (attempt + 1) with
        | Except.ok s => (⟨Except.ok s, attempt + 1, []⟩ : GenRun)
        | Except.error e =>
          if attempt + 1 > maxR then ⟨Except.error e, attempt + 1, []⟩
          else
            let rest := genGo oracle maxR (attempt + 1) f
            ⟨rest.result, rest.attempts, (attempt + 1) :: rest.sleeps⟩) = _
  rw [he]
  simp only [if_pos hgt]

theorem genGo_step_fail (oracle : Nat → Except PyExc GVal) (maxR attempt f : Nat)
    (e : PyExc) (he : attemptOutcome oracle (attempt + 1) = Except.error e)
    (hle : attempt + 1 ≤ maxR) :
    genGo oracle maxR attempt (f + 1)
      = ⟨(genGo oracle maxR (attempt + 1) f).result,
         (genGo oracle maxR (attempt + 1) f).attempts,
         (attempt + 1) :: (genGo oracle maxR (attempt + 1) f).sleeps⟩ := by
  show (match attemptOutcome oracle (attempt + 1) with
        | Except.ok s => (⟨Except.ok s, attempt + 1, []⟩ : GenRun)
        | Except.error e =>
          if attempt + 1 > maxR then ⟨Except.error e, attempt + 1, []⟩
          else
            let rest := genGo oracle maxR (attempt + 1) f
            ⟨rest.result, rest.attempts, (attempt + 1) :: rest.sleeps⟩) = _
  rw [he]
  simp only [if_neg (by omega : ¬ attempt + 1 > maxR)]

theorem genGo_all_fail (oracle : Nat → Except PyExc GVal) (maxR : Nat) :
    ∀ (fuel attempt : Nat), attempt + fuel = maxR + 1 → 1 ≤ fuel →
      (∀ a, attempt + 1 ≤ a → a ≤ maxR + 1 →
        ∃ e, attemptOutcome oracle a = Except.error e) →
      (∃ e, (genGo oracle maxR attempt fuel).result = Except.error e) ∧
      (genGo oracle maxR attempt fuel).attempts = maxR + 1 ∧
      (genGo oracle maxR attempt fuel).sleeps
        = (List.range (fuel - 1)).map (fun i => attempt + 1 + i) := by
  intro fuel
  induction fuel with
  | zero => intro attempt h h1 _; omega
  | succ f ih =>
    intro attempt h _ hfail
    obtain ⟨e, he⟩ := hfail (attempt + 1) (Nat.le_refl _) (by omega)
    by_cases hgt : attempt + 1 > maxR
    · rw [genGo_step_fail_last oracle maxR attempt f e he hgt]
      refine ⟨⟨e, rfl⟩, ?_, ?_⟩
      · show attempt + 1 = maxR + 1
        omega
      · have hf0 : f = 0 := by omega
        subst hf0
        rfl
    · have hle : attempt + 1 ≤ maxR := by omega
      rw [genGo_step_fail oracle maxR attempt f e he hle]
      have hrec := ih (attempt + 1) (by omega) (by omega)
        (fun a ha1 ha2 => hfail a (by omega) ha2)
      refine ⟨hrec.1, hrec.2.1, ?_⟩
      show (attempt + 1) :: (genGo oracle maxR (attempt + 1) f).sleeps = _
      rw [hrec.2.2]
      obtain ⟨k, hk⟩ : ∃ k, f = k + 1 := ⟨f - 1, by omega⟩
      subst hk
      simp only [Nat.add_sub_cancel, Nat.succ_sub_one]
      rw [List.range_succ_eq_map, List.map_cons, List.map_map]
      refine congrArg₂ _ (by omega) ?_
      refine congrArg₂ _ ?_ rfl
      funext i
      show attempt + 1 + 1 + i = attempt + 1 + (i + 1)
      omega

theorem genGo_first_success (oracle : Nat → Except PyExc GVal) (maxR : Nat) :
    ∀ (j attempt fuel : Nat) (s : Str),
      attempt + fuel = maxR + 1 →
      attempt + j ≤ maxR →
      (∀ a, attempt + 1 ≤ a → a ≤ attempt + j →
        ∃ e, attemptOutcome oracle a = Except.error e) →
      attemptOutcome oracle (attempt + j + 1) = Except.ok s →
      (genGo oracle maxR attempt fuel).result = Except.ok s ∧
      (genGo oracle maxR attempt fuel).attempts = attempt + j + 1 := by
  intro j
  induction j with
  | zero =>
    intro attempt fuel s h hle hfail hs
    obtain ⟨f, hf⟩ : ∃ f, fuel = f + 1 := ⟨fuel - 1, by omega⟩
    subst hf
    rw [genGo_step_ok oracle maxR attempt f s hs]
    exact ⟨rfl, rfl⟩
  | succ k ih =>
    intro attempt fuel s h hle hfail hs
    obtain ⟨f, hf⟩ : ∃ f, fuel = f + 1 := ⟨fuel - 1, by omega⟩
    subst hf
    obtain ⟨e, he⟩ := hfail (attempt + 1) (Nat.le_refl _) (by omega)
    rw [genGo_step_fail oracle maxR attempt f e he (by omega)]
    have hs2 : attemptOutcome oracle ((attempt + 1) + k + 1) = Except.ok s := by
      rw [show (attempt + 1) + k + 1 = attempt + (k + 1) + 1 by omega]
      exact hs
    have hrec := ih (attempt + 1) f s (by omega) (by omega)
      (fun a ha1 ha2 => hfail a (by omega) (by omega)) hs2
    refine ⟨hrec.1, ?_⟩
    show (genGo oracle maxR (attempt + 1) f).attempts = attempt + (k + 1) + 1
    rw [hrec.2]
    omega

/-- C4: with the client library available, if the first N attempts fail
(an attempt fails when the backend raises or when extraction yields an
absent or empty text, synthesized as a ValueError) and attempt N + 1
succeeds with N at most max_retries, the client returns the text
extracted on that attempt; if every attempt fails, the client raises
after exactly max_retries + 1 attempts, having slept attempt * 1.0 time
units after each non-final failed attempt. -/
theorem generate_article_with_gemini_retry :
    (∀ (oracle : Nat → Except PyExc GVal) (max_retries N : Nat) (s : Str),
      N ≤ max_retries →
      (∀ a, 1 ≤ a → a ≤ N → ∃ e, attemptOutcome oracle a = Except.error e) →
      attemptOutcome oracle (N + 1) = Except.ok s →
      (generate_article_with_gemini true oracle max_retries).result = Except.ok s ∧
      (generate_article_with_gemini true oracle max_retries).attempts = N + 1) ∧
    (∀ (oracle : Nat → Except PyExc GVal) (max_retries : Nat),
      (∀ a, 1 ≤ a → a ≤ max_retries + 1 →
        ∃ e, attemptOutcome oracle a = Except.error e) →
      (∃ e, (generate_article_with_gemini true oracle max_retries).result
        = Except.error e) ∧
      (generate_article_with_gemini true oracle max_retries).attempts
        = max_retries + 1 ∧
      (generate_article_with_gemini true oracle max_retries).sleeps
        = (List.range max_retries).map (fun i => 1 + i)) := by
  constructor
  · intro oracle maxR N s hN hfail hs
    show (genGo oracle maxR 0 (maxR + 1)).result = Except.ok s ∧
      (genGo oracle maxR 0 (maxR + 1)).attempts = N + 1
    have := genGo_first_success oracle maxR N 0 (maxR + 1) s (by omega) (by omega)
      (fun a ha1 ha2 => hfail a ha1 (by omega)) (by simpa using hs)
    simpa using this
  · intro oracle maxR hfail
    show (∃ e, (genGo oracle maxR 0 (maxR + 1)).result = Except.error e) ∧
      (genGo oracle maxR 0 (maxR + 1)).attempts = maxR + 1 ∧
      (genGo oracle maxR 0 (maxR + 1)).sleeps
        = (List.range maxR).map (fun i => 1 + i)
    have := genGo_all_fail oracle maxR (maxR + 1) 0 (by omega) (by omega)
      (fun a ha1 ha2 => hfail a ha1 ha2)
    simpa using this

/-- A concrete generation oracle that fails on attempt 1 and succeeds on
attempt 2 with a response carrying a text attribute. -/
def retryOracle (a : Nat) : Except PyExc GVal :=
  if a = 2 then Except.ok (GVal.vobj [("text", GVal.vstr "ok".toList)])
  else Except.error PyExc.otherError

/-- Witness for C4: one failure then a success within the retry budget. -/
theorem generate_article_with_gemini_retry_witness :
    (generate_article_with_gemini true retryOracle 2).result
        = Except.ok "ok".toList ∧
      (generate_article_with_gemini true retryOracle 2).attempts = 2 := by
  refine generate_article_with_gemini_retry.1 retryOracle 2 1 "ok".toList
    (by omega) ?_ (by rfl)
  intro a h1 h2
  have ha : a = 1 := by omega
  subst ha
  exact ⟨PyExc.otherError, rfl⟩

-- ---------- Claims about the handlers (C7, C9, C10, C1) ----------

/-- C7: with no generated article in session the publish handler appends
the started and no-article log lines and performs no external call at
all; with an article but an empty platform key (input and session) it
appends the started and key-missing log lines and performs no external
call, in particular never invoking the organization resolver. -/
theorem post_btn_handler_refusals :
    (∀ (env : PubEnv) (s : SessionState), s.generatedArticle = [] →
      (post_btn_handler env s).effs = [] ∧
      (post_btn_handler env s).state.logs
        = s.logs ++ [LogMsg.pubStarted, LogMsg.noArticleWarn]) ∧
    (∀ (env : PubEnv) (s : SessionState), s.generatedArticle ≠ [] →
      env.linkedinKeyInput = [] → s.linkedinKey = [] →
      (post_btn_handler env s).effs = [] ∧
      (post_btn_handler env s).state.logs
        = s.logs ++ [LogMsg.pubStarted, LogMsg.keyMissingError]) := by
  constructor
  · intro env s h
    constructor <;> simp [post_btn_handler, addLog, h]
  · intro env s h hki hsk
    constructor <;> simp [post_btn_handler, addLog, h, hki, hsk]

/-- A publish environment used for concrete evaluation: no backend
module, dry run enabled, empty inputs, benign oracles. -/
def pubEnvIdle : PubEnv :=
  ⟨false, false, [], [], true, Except.ok (), Except.ok (), Except.ok none, Except.ok ()⟩

/-- The empty session. -/
def sessionEmpty : SessionState := ⟨[], [], [], []⟩

/-- Witness for C7 at the empty session: the handler refuses and is
silent apart from the two log lines. -/
theorem post_btn_handler_refusals_witness :
    (post_btn_handler pubEnvIdle sessionEmpty).effs = [] ∧
    (post_btn_handler pubEnvIdle sessionEmpty).state.logs
      = sessionEmpty.logs ++ [LogMsg.pubStarted, LogMsg.noArticleWarn] :=
  post_btn_handler_refusals.1 pubEnvIdle sessionEmpty rfl

/-- C9: when the generation client library is unavailable and no
generation key is present (neither typed in nor held in session), the
generate handler stores exactly the prompt header followed by the fixed
placeholder article: the app-level MOCK_ARTICLE on the internal path,
and the core module placeholder when the backend override is present
(whose generator produces the same header with its own fixed tail). -/
theorem generate_btn_mock_article :
    (∀ (env : GenEnv) (s : SessionState),
      (env.backendModule && env.backendHasGen) = false →
      env.genaiAvailable = false →
      env.geminiKeyInput = [] → s.geminiKey = [] →
      (generate_btn_handler env s).state.generatedArticle
        = promptHeaderText env.promptInput ++ MOCK_ARTICLE) ∧
    (∀ (env : GenEnv) (s : SessionState),
      (env.backendModule && env.backendHasGen) = true →
      env.backendNamed
        = Except.ok (generate_article env.promptInput env.modelName none) →
      (generate_btn_handler env s).state.generatedArticle
        = promptHeaderText env.promptInput ++ core_placeholder) := by
  constructor
  · intro env s hb hg hki hsk
    by_cases hsv : env.savePath.isEmpty <;>
      by_cases hfw : env.fileWriteOk <;>
        simp [generate_btn_handler, genArticleStep, addLog, hb, hg, hki, hsk, hsv, hfw]
  · intro env s hb hn
    by_cases hsv : env.savePath.isEmpty <;>
      by_cases hfw : env.fileWriteOk <;>
        simp [generate_btn_handler, genArticleStep, addLog, hb, hn, hsv, hfw,
          generate_article]

/-- A generate environment with no backend module, no client library and
no key: the mock path. -/
def genEnvMock : GenEnv :=
  ⟨false, false, false, "X".toList, "gemini-pro-latest".toList, [], [], [],
   Except.ok [], Except.ok [], fun _ => Except.error PyExc.otherError, true⟩

/-- Witness for C9: prompt "X" on the mock path yields the prompt header
plus the fixed placeholder. -/
theorem generate_btn_mock_article_witness :
    (generate_btn_handler genEnvMock sessionEmpty).state.generatedArticle
      = promptHeaderText "X".toList ++ MOCK_ARTICLE :=
  generate_btn_mock_article.1 genEnvMock sessionEmpty rfl rfl rfl rfl

/-- C10: when the backend override's generator raises anything other
than the signature-mismatch TypeError, the generate handler logs the
failure and leaves the session article unchanged, and no file write
occurs. -/
theorem generate_btn_backend_error_no_overwrite :
    ∀ (env : GenEnv) (s : SessionState) (e : PyExc),
      (env.backendModule && env.backendHasGen) = true →
      env.backendNamed = Except.error e → e ≠ PyExc.typeError →
      (generate_btn_handler env s).state.generatedArticle = s.generatedArticle ∧
      (∀ p c, Eff.fileWrite p c ∉ (generate_btn_handler env s).effs) ∧
      (generate_btn_handler env s).state.logs
        = s.logs ++ [LogMsg.genStarted, LogMsg.usingBackendGen, LogMsg.genFailed e] := by
  intro env s e hb hn hne
  cases e with
  | typeError => exact absurd rfl hne
  | httpError =>
    refine ⟨?_, ?_, ?_⟩ <;> simp [generate_btn_handler, genArticleStep, addLog, hb, hn]
  | runtimeError =>
    refine ⟨?_, ?_, ?_⟩ <;> simp [generate_btn_handler, genArticleStep, addLog, hb, hn]
  | valueError =>
    refine ⟨?_, ?_, ?_⟩ <;> simp [generate_btn_handler, genArticleStep, addLog, hb, hn]
  | otherError =>
    refine ⟨?_, ?_, ?_⟩ <;> simp [generate_btn_handler, genArticleStep, addLog, hb, hn]

/-- A generate environment whose backend override generator raises a
non-TypeError exception. -/
def genEnvRaise : GenEnv :=
  ⟨true, true, false, "X".toList, "gemini-pro-latest".toList, [], [], "article.txt".toList,
   Except.error PyExc.otherError, Except.ok [], fun _ => Except.error PyExc.otherError, true⟩

/-- A session holding a previously generated article. -/
def sessionWithArticle : SessionState := ⟨"old".toList, [], [], []⟩

/-- Witness for C10: the raising backend override leaves the stored
article intact and writes no file. -/
theorem generate_btn_backend_error_no_overwrite_witness :
    (generate_btn_handler genEnvRaise sessionWithArticle).state.generatedArticle
        = sessionWithArticle.generatedArticle ∧
      (∀ p c, Eff.fileWrite p c
        ∉ (generate_btn_handler genEnvRaise sessionWithArticle).effs) ∧
      (generate_btn_handler genEnvRaise sessionWithArticle).state.logs
        = sessionWithArticle.logs
          ++ [LogMsg.genStarted, LogMsg.usingBackendGen,
              LogMsg.genFailed PyExc.otherError] :=
  generate_btn_backend_error_no_overwrite genEnvRaise sessionWithArticle
    PyExc.otherError rfl rfl (by decide)

theorem isEmpty_eq_false_of_ne_nil {α : Type} (l : List α) (h : l ≠ []) :
    l.isEmpty = false := by
  cases l with
  | nil => exact absurd rfl h
  | cons a t => rfl

/-- The LinkedIn key the publish handler stores back into the session:
the typed input when non-empty, else the previously held key. -/
def sessionKeyAfterUpdate (env : PubEnv) (s : SessionState) : Str :=
  if env.linkedinKeyInput.isEmpty then s.linkedinKey else env.linkedinKeyInput

theorem netPost_requires_key_and_live (env : PubEnv) (s : SessionState)
    (hmem : Eff.netPost ∈ (post_btn_handler env s).effs) :
    sessionKeyAfterUpdate env s ≠ [] ∧ env.dryRun = false := by
  by_cases h1 : s.generatedArticle = []
  · simp [post_btn_handler, addLog, h1] at hmem
  · by_cases h2 :
      (if env.linkedinKeyInput = [] then s.linkedinKey else env.linkedinKeyInput) = []
    · simp [post_btn_handler, addLog, h1, h2] at hmem
    · have hkey : sessionKeyAfterUpdate env s ≠ [] := by
        simpa [sessionKeyAfterUpdate, List.isEmpty_iff] using h2
      refine ⟨hkey, ?_⟩
      by_cases h3 : (env.backendModule && env.backendHasPost) = true
      · exfalso
        cases hbn : env.backendPostNamed with
        | ok u =>
          simp [post_btn_handler, pubBody, addLog, h1, h2, h3, hbn] at hmem
        | error e =>
          cases e with
          | typeError =>
            cases hbp : env.backendPostPos with
            | ok u =>
              simp [post_btn_handler, pubBody, addLog, h1, h2, h3, hbn, hbp] at hmem
            | error e2 =>
              simp [post_btn_handler, pubBody, addLog, h1, h2, h3, hbn, hbp] at hmem
          | httpError =>
            simp [post_btn_handler, pubBody, addLog, h1, h2, h3, hbn] at hmem
          | runtimeError =>
            simp [post_btn_handler, pubBody, addLog, h1, h2, h3, hbn] at hmem
          | valueError =>
            simp [post_btn_handler, pubBody, addLog, h1, h2, h3, hbn] at hmem
          | otherError =>
            simp [post_btn_handler, pubBody, addLog, h1, h2, h3, hbn] at hmem
      · have h3f : (env.backendModule && env.backendHasPost) = false := by
          revert h3
          cases env.backendModule && env.backendHasPost <;> simp
        by_cases h5 : env.dryRun = true
        · exfalso
          by_cases h4 : env.orgIdOverride = []
          · cases hr : env.orgResolve with
            | error e =>
              simp [post_btn_handler, pubBody, addLog, h1, h2, h3f, h4, hr] at hmem
            | ok o =>
              cases o with
              | none =>
                simp [post_btn_handler, pubBody, addLog, h1, h2, h3f, h4, hr] at hmem
              | some oid =>
                by_cases ho : oid = []
                · simp [post_btn_handler, pubBody, addLog, h1, h2, h3f, h4, hr, ho] at hmem
                · simp [post_btn_handler, pubBody, addLog, h1, h2, h3f, h4, hr, ho,
                    h5] at hmem
          · simp [post_btn_handler, pubBody, addLog, h1, h2, h3f, h4, h5] at hmem
        · revert h5
          cases env.dryRun <;> simp

/-- C1 (amended): the live UGC POST happens only when the session-held
LinkedIn key is non-empty and dry run is disabled; under dry run no
network POST ever occurs; and under dry run the payload preview is
logged whenever the internal (non-backend-override) path reaches payload
construction, that is, an article and a key are present and an
organization id is available by override or by successful resolution. -/
theorem publish_live_post_guard :
    (∀ (env : PubEnv) (s : SessionState),
      Eff.netPost ∈ (post_btn_handler env s).effs →
      sessionKeyAfterUpdate env s ≠ [] ∧ env.dryRun = false) ∧
    (∀ (env : PubEnv) (s : SessionState), env.dryRun = true →
      Eff.netPost ∉ (post_btn_handler env s).effs) ∧
    (∀ (env : PubEnv) (s : SessionState), env.dryRun = true →
      s.generatedArticle ≠ [] → sessionKeyAfterUpdate env s ≠ [] →
      (env.backendModule && env.backendHasPost) = false →
      (env.orgIdOverride ≠ [] ∨
        (env.orgIdOverride = [] ∧
          ∃ oid, oid ≠ [] ∧ env.orgResolve = Except.ok (some oid))) →
      ∃ p, LogMsg.dryRunPayloadPreview p
        ∈ (post_btn_handler env s).state.logs) := by
  refine ⟨fun env s hmem => netPost_requires_key_and_live env s hmem, ?_, ?_⟩
  · intro env s hdry hmem
    have hlive := (netPost_requires_key_and_live env s hmem).2
    rw [hdry] at hlive
    exact Bool.noConfusion hlive
  · intro env s hdry hart hkey hb horg
    have hkey2 :
        (if env.linkedinKeyInput = [] then s.linkedinKey else env.linkedinKeyInput)
          ≠ [] := by
      simpa [sessionKeyAfterUpdate, List.isEmpty_iff] using hkey
    rcases horg with h4 | ⟨h4e, oid, hone, hr⟩
    · refine ⟨build_ugc_payload env.orgIdOverride s.generatedArticle, ?_⟩
      simp [post_btn_handler, pubBody, pubWrapExc, addLog, hart, hkey2, hb, h4, hdry]
    · refine ⟨build_ugc_payload oid s.generatedArticle, ?_⟩
      simp [post_btn_handler, pubBody, pubWrapExc, addLog, hart, hkey2, hb, h4e, hr,
        hone, hdry]

/-- A publish environment with the backend override present, a key
typed in, and dry run enabled. -/
def pubEnvBackendDry : PubEnv :=
  ⟨true, true, "k".toList, [], true,
   Except.ok (), Except.ok (), Except.ok none, Except.ok ()⟩

/-- Counterexample for C1 as stated: under dry run the handler does not
always log the payload preview — with the backend override present it
calls the override and no preview line is ever appended. -/
theorem publish_dry_run_preview_cex :
    ¬ (∀ (env : PubEnv) (s : SessionState), env.dryRun = true →
        ∃ p, LogMsg.dryRunPayloadPreview p
          ∈ (post_btn_handler env s).state.logs) := by
  intro h
  obtain ⟨p, hp⟩ := h pubEnvBackendDry sessionWithArticle rfl
  have hlogs : (post_btn_handler pubEnvBackendDry sessionWithArticle).state.logs
      = [LogMsg.pubStarted, LogMsg.usingBackendPost, LogMsg.backendPubSuccessHeader,
         LogMsg.backendPubResponse] := rfl
  rw [hlogs] at hp
  simp at hp

/-- A publish environment on the internal path with an organization
override and dry run enabled. -/
def pubEnvDryOverride : PubEnv :=
  ⟨false, false, "k".toList, "12345".toList, true,
   Except.ok (), Except.ok (), Except.ok none, Except.ok ()⟩

/-- Witness for the amended C1: the dry-run internal path with an
override logs a payload preview. -/
theorem publish_live_post_guard_witness :
    ∃ p, LogMsg.dryRunPayloadPreview p
      ∈ (post_btn_handler pubEnvDryOverride sessionWithArticle).state.logs :=
  publish_live_post_guard.2.2 pubEnvDryOverride sessionWithArticle rfl
    (by decide) (by decide) rfl (Or.inl (by decide))
